import Mathlib

/-!
Shallow embedding of the asynchronous job polling and status reconciliation
logic of the magicai repository.

Embedded source:
* `pollTaskStatus` — src/components/model-generator.tsx, lines 774–1008
* `handleTextSubmit` — src/components/model-generator.tsx, lines 394–452
* `handleTaskStatus` — src/app/api/task-status/route.ts, lines 227–383

JavaScript numbers are modelled as rationals (`ℚ`): the retry counter takes the
value `retryCount + 0.5` on the 405/GET path, so naturals do not suffice.
JavaScript string truthiness (`""` and `null`/absent are falsy) is modelled by
`strTruthy` on `Option String`; number truthiness (`0` falsy) by `numTruthy` on
`Option ℚ`.  `x || 0` on an optional number is `numOr0`; `x || null` on an
optional string is `orNull`.
-/

/-- The UI status union type of the component
(`type ModelGenerationStatus = "idle" | "uploading" | "generating" | "completed" | "error"`). -/
inductive ModelGenerationStatus where
  | idle
  | uploading
  | generating
  | completed
  | error
deriving DecidableEq, Repr

/-- JavaScript truthiness of an optional string: absent (`null`/`undefined`)
and the empty string are falsy. -/
def strTruthy : Option String → Bool
  | some s => if s = "" then false else true
  | none => false

/-- JavaScript truthiness of an optional number: absent and `0` are falsy
(`NaN` is not modelled). -/
def numTruthy : Option ℚ → Bool
  | some p => if p = 0 then false else true
  | none => false

/-- JavaScript `x || 0` for an optional number: both an absent value and `0`
collapse to `0`. -/
def numOr0 (o : Option ℚ) : ℚ := o.getD 0

/-- JavaScript `x || null` for an optional string: a falsy value collapses to
`null` (`none`). -/
def orNull (o : Option String) : Option String := if strTruthy o then o else none

/-- JavaScript `Math.min` on two numbers. -/
def mathMin (a b : ℚ) : ℚ := if a ≤ b then a else b

/-- JavaScript `String.prototype.trim`: strip leading and trailing whitespace
(modelled structurally so that it is kernel-computable). -/
def jsTrim (s : String) : String :=
  ⟨((s.data.dropWhile Char.isWhitespace).reverse.dropWhile Char.isWhitespace).reverse⟩

/-- The JSON body exchanged between the task-status route and the polling
client.  Fields the client reads: `error`, `message`, `status`, `progress`,
`modelUrl`, `baseModelUrl`; the route additionally emits `renderedImage`.
An absent field is `none`. -/
structure StatusBody where
  error : Option String := none
  message : Option String := none
  status : Option String := none
  progress : Option ℚ := none
  modelUrl : Option String := none
  baseModelUrl : Option String := none
  renderedImage : Option String := none
deriving DecidableEq, Repr

/-- The possible outcomes of one `fetch` of the status endpoint as seen by
`pollTaskStatus`:
* `netError` — the fetch itself rejects (network error);
* `non2xx code` — `response.ok` is false with the given HTTP status code;
* `parseError` — `response.ok` but `response.json()` rejects;
* `body d` — `response.ok` and the body parses to `d`. -/
inductive PollOutcome where
  | netError
  | non2xx (code : Int)
  | parseError
  | body (d : StatusBody)
deriving DecidableEq, Repr

/-- The observable effects of one invocation of `pollTaskStatus`:
`sets` is the list of arguments passed to `setProgress`, in call order;
`uiStatus` is the argument of `setStatus` when called; `setIsGen` the argument
of `setIsGenerating` when called; `setModelUrl` the argument of `setModelUrl`
when called; `next` is `some (retryCount, maxRetries)` when a further
`pollTaskStatus` call is scheduled via `setTimeout`. -/
structure PollResult where
  sets : List ℚ := []
  uiStatus : Option ModelGenerationStatus := none
  setIsGen : Option Bool := none
  setModelUrl : Option (Option String) := none
  next : Option (ℚ × ℚ) := none
deriving DecidableEq, Repr

/-- The `catch` handler of `pollTaskStatus` (lines 976–1007).  When
`retryCount >= maxRetries` it shows fake progress
`Math.min(25 + retryCount * 10, 98)`, sets the status to `"generating"` and
reschedules with `maxRetries + 5`; when `retryCount < maxRetries` it retries;
the final error branch is dead code on a linear order (kept verbatim). -/
def pollCatch (rc mr : ℚ) : PollResult :=
  if rc ≥ mr then
    { sets := [mathMin (25 + rc * 10) 98],
      uiStatus := some .generating,
      next := some (rc + 1, mr + 5) }
  else if rc < mr then
    { next := some (rc + 1, mr) }
  else
    { uiStatus := some .error, setIsGen := some false }

/-- The status-dispatch part of `pollTaskStatus` (lines 871–975): the
`"success"` branch, the `"failed" | "cancelled" | "unknown"` branch, and the
in-progress branch with its simulated-progress sub-branch
(`Math.min(98, data.progress + 3 + Math.floor(Math.random() * 5))`, the random
part passed in as `jitter`). -/
def pollStatusBranch (rc mr : ℚ) (d : StatusBody) (jitter : ℚ) : PollResult :=
  if d.status = some "success" then
    let finalModelUrl : Option String :=
      if strTruthy d.modelUrl then d.modelUrl
      else if strTruthy d.baseModelUrl then d.baseModelUrl
      else none
    { sets := [100],
      uiStatus := some .completed,
      setIsGen := some false,
      setModelUrl := some finalModelUrl,
      next := none }
  else if d.status = some "failed" ∨ d.status = some "cancelled" ∨ d.status = some "unknown" then
    { uiStatus := some .error, setIsGen := some false }
  else
    -- still in progress: `setProgress(data.progress || 0)` first
    let p0 := numOr0 d.progress
    if rc ≥ mr ∧ numTruthy d.progress then
      -- under the truthiness guard `data.progress = p0`
      { sets := [p0, mathMin 98 (p0 + 3 + jitter)],
        next := some (0, mr) }
    else
      { sets := [p0], next := some (rc + 1, mr) }

/-- The body-handling part of `pollTaskStatus` after a parsed 200 response
(lines 841–975): the soft-error branch (`data.error || data.message`) with its
`running`+numeric-progress early return and its `!data.status` throw, falling
through to the status dispatch otherwise. -/
def pollBody (rc mr : ℚ) (d : StatusBody) (jitter : ℚ) : PollResult :=
  if strTruthy d.error || strTruthy d.message then
    if d.status = some "running" ∧ d.progress.isSome then
      -- `setProgress(data.progress)`; the guard makes `numOr0 d.progress` that value
      { sets := [numOr0 d.progress], next := some (rc + 1, mr) }
    else if ¬ strTruthy d.status then
      -- `throw new Error(errorMsg)` lands in the catch handler
      pollCatch rc mr
    else
      pollStatusBranch rc mr d jitter
  else
    pollStatusBranch rc mr d jitter

/-- One invocation of `pollTaskStatus(taskId, retryCount, maxRetries)`
(lines 774–1008), as a function of the fetch outcome.  The HTTP method is
`retryCount > 0 ? 'POST' : 'GET'`; a 405 on GET reschedules immediately with
`retryCount + 0.5`; a 405 on POST retries below `maxRetries` and otherwise
throws; every other non-2xx, a network error and a JSON parse error throw into
the catch handler. -/
def pollStep (rc mr : ℚ) (o : PollOutcome) (jitter : ℚ) : PollResult :=
  match o with
  | .netError => pollCatch rc mr
  | .non2xx code =>
    if code = 405 then
      if rc > 0 then
        -- method POST
        if rc < mr then { next := some (rc + 1, mr) }
        else pollCatch rc mr
      else
        -- method GET: immediate switch to POST at retryCount + 0.5
        { next := some (rc + 1 / 2, mr) }
    else pollCatch rc mr
  | .parseError => pollCatch rc mr
  | .body d => pollBody rc mr d jitter

/-- The tracker-side state a poll chain mutates: the React state variables
`status`, `progress`, `modelUrl`, `isGenerating`, plus the pending scheduled
call's `(retryCount, maxRetries)` and whether such a call is pending
(`active`).  `pollTaskStatus` for a job is re-entered only through the
`setTimeout` recorded in `PollResult.next`, so `active = false` means the chain
for this job has ended. -/
structure TrackerState where
  rc : ℚ
  mr : ℚ
  ui : ModelGenerationStatus
  progress : ℚ
  modelUrl : Option String
  isGen : Bool
  active : Bool
deriving DecidableEq, Repr

/-- Apply the observable effects of one poll invocation to the tracker state. -/
def applyResult (st : TrackerState) (r : PollResult) : TrackerState :=
  { rc := (r.next.map Prod.fst).getD st.rc,
    mr := (r.next.map Prod.snd).getD st.mr,
    ui := r.uiStatus.getD st.ui,
    progress := r.sets.getLastD st.progress,
    modelUrl := (r.setModelUrl).getD st.modelUrl,
    isGen := (r.setIsGen).getD st.isGen,
    active := r.next.isSome }

/-- One scheduled poll firing with outcome `o` and random jitter `j`; a job
with no pending poll is left untouched. -/
def trackStep (st : TrackerState) (o : PollOutcome) (j : ℚ) : TrackerState :=
  if st.active then applyResult st (pollStep st.rc st.mr o j) else st

/-- Run a chain of polls: each list element is the fetch outcome and jitter of
the next pending poll.  Once no poll is pending the chain has ended and the
remaining outcomes never materialise. -/
def runTrace (st : TrackerState) : List (PollOutcome × ℚ) → TrackerState
  | [] => st
  | (o, j) :: rest =>
    if st.active then runTrace (applyResult st (pollStep st.rc st.mr o j)) rest else st

/-- The sequence of all `setProgress` arguments observed along a poll chain. -/
def obsTrace (st : TrackerState) : List (PollOutcome × ℚ) → List ℚ
  | [] => []
  | (o, j) :: rest =>
    if st.active then
      (pollStep st.rc st.mr o j).sets ++
        obsTrace (applyResult st (pollStep st.rc st.mr o j)) rest
    else []

/-- Tracker state right after a successful submission: `handleTextSubmit` has
set `status = "generating"`, `progress = 0`, `isGenerating = true` and called
`pollTaskStatus(taskId)` with defaults `retryCount = 0`, `maxRetries = 3`. -/
def initTracker : TrackerState :=
  { rc := 0, mr := 3, ui := .generating, progress := 0,
    modelUrl := none, isGen := true, active := true }

/-- The `output` object of a Tripo task payload
(src/app/api/task-status/route.ts lines 338–357). -/
structure TripoOutput where
  model : Option String := none
  base_model : Option String := none
  rendered_image : Option String := none
deriving DecidableEq, Repr

/-- The `data.data` object of a parsed upstream Tripo response. -/
structure TripoTask where
  status : Option String := none
  progress : Option ℚ := none
  output : Option TripoOutput := none
deriving DecidableEq, Repr

/-- Result normalization of `handleTaskStatus` (route.ts lines 330–366):
promote `base_model` to the primary model URL when the primary is absent, and
pass `progress` through as `taskData.progress || 0`. -/
def normalizeTask (t : TripoTask) : StatusBody :=
  let fb : Option String × Option String :=
    match t.output with
    | some out =>
      if t.status = some "success" then
        let final0 := orNull out.model
        let base := orNull out.base_model
        let final1 := if final0.isNone ∧ base.isSome then base else final0
        (final1, base)
      else (none, none)
    | none => (none, none)
  { status := t.status,
    progress := some (numOr0 t.progress),
    modelUrl := fb.1,
    baseModelUrl := fb.2,
    renderedImage :=
      if t.status = some "success" then t.output.bind (fun out => out.rendered_image)
      else none }

/-- The possible outcomes of the route's upstream `fetch` of the Tripo API:
* `fetchError msg` — the fetch rejects (rethrown, caught by the outer catch);
* `httpError code` — `tripoResponse.ok` is false with the given status code;
* `okUnparseable` — ok but `tripoResponse.json()` rejects;
* `okNoData` — ok and parsed but `data`/`data.data` is falsy;
* `okTask t` — ok, parsed, with task payload `t`. -/
inductive UpstreamOutcome where
  | fetchError (msg : String)
  | httpError (code : Int)
  | okUnparseable
  | okNoData
  | okTask (t : TripoTask)
deriving DecidableEq, Repr

/-- The task-status route handler `handleTaskStatus`
(src/app/api/task-status/route.ts lines 227–383), returning the HTTP status
code and JSON body.  `taskId` comes from the query string, `apiKey` from
`process.env.TRIPO_API_KEY`. -/
def handleTaskStatus (taskId : Option String) (apiKey : Option String)
    (up : UpstreamOutcome) : Int × StatusBody :=
  if ¬ strTruthy taskId then
    (400, { error := some "Task ID is required" })
  else if ¬ strTruthy apiKey then
    (200, { status := some "running", progress := some 35,
            message := some "API key missing, but showing progress UI" })
  else
    match up with
    | .fetchError msg =>
      (200, { error := some "Internal server error", message := some msg,
              status := some "running", progress := some 40 })
    | .httpError code =>
      if code = 401 ∨ code = 403 then
        (200, { status := some "running", progress := some 45,
                error := some "API key issue, showing progress UI as fallback" })
      else
        (200, { status := some "running", progress := some 50,
                error := some "Failed to get task status" })
    | .okUnparseable =>
      (200, normalizeTask { status := some "running", progress := some 30 })
    | .okNoData =>
      (200, { status := some "running", progress := some 60,
              error := some "Unexpected API response format" })
    | .okTask t => (200, normalizeTask t)

/-- The outcome of the `/api/generate-model` fetch made by `handleTextSubmit`. -/
inductive SubmitOutcome where
  | fetchError
  | respNotOk
  | parseError
  | ok (taskId : String)
deriving DecidableEq, Repr

/-- Observable effects of one `handleTextSubmit` run: the number of
`/api/generate-model` calls issued, the `setStatus` calls in order, the final
`setIsGenerating` argument, the `setProgress` calls, and the
`pollTaskStatus(taskId, retryCount, maxRetries)` call started, if any. -/
structure SubmitResult where
  generateCalls : Nat
  statusSets : List ModelGenerationStatus
  setIsGen : Option Bool
  sets : List ℚ
  poll : Option (String × ℚ × ℚ)
deriving DecidableEq, Repr

/-- The submit handler `handleTextSubmit`
(src/components/model-generator.tsx lines 394–452): an empty trimmed prompt or
a failed limits check returns early; otherwise exactly one generation request
is issued, and a non-ok response, a parse error or a thrown fetch error all
land in the catch which sets `status = "error"` with no retry, while a
successful response starts `pollTaskStatus(data.taskId)` (defaults
`retryCount = 0`, `maxRetries = 3`). -/
def handleTextSubmit (textPrompt : String) (limitsOk : Bool)
    (o : SubmitOutcome) : SubmitResult :=
  if jsTrim textPrompt = "" then
    { generateCalls := 0, statusSets := [], setIsGen := none, sets := [], poll := none }
  else if ¬ limitsOk then
    { generateCalls := 0, statusSets := [], setIsGen := none, sets := [], poll := none }
  else
    match o with
    | .ok taskId =>
      { generateCalls := 1, statusSets := [.uploading, .generating],
        setIsGen := some true, sets := [0, 0], poll := some (taskId, 0, 3) }
    | _ =>
      { generateCalls := 1, statusSets := [.uploading, .generating, .error],
        setIsGen := some false, sets := [0, 0], poll := none }

/-- The poll outcomes the source treats as an explicit terminal failure
signal: a parsed body whose `status` is `"failed"`, `"cancelled"` or
`"unknown"` (model-generator.tsx line 948). -/
def isFailureSignal : PollOutcome → Prop
  | .body d => d.status = some "failed" ∨ d.status = some "cancelled" ∨ d.status = some "unknown"
  | _ => False

/-- The poll outcomes the source treats as a terminal success signal: a parsed
body whose `status` is `"success"` (model-generator.tsx line 871). -/
def isSuccessSignal : PollOutcome → Prop
  | .body d => d.status = some "success"
  | _ => False

/-- An outcome whose reported numeric progress, if any, is at most 98. -/
def reportedLe98 : PollOutcome → Prop
  | .body d => ∀ p, d.progress = some p → p ≤ 98
  | _ => True

/-- An outcome whose reported numeric progress, if any, is below 100. -/
def reportedLt100 : PollOutcome → Prop
  | .body d => ∀ p, d.progress = some p → p < 100
  | _ => True

/-- A successful upstream task payload whose output carries only a
`base_model` URL and no primary `model` URL. -/
def successBaseOnlyTask (X : String) : TripoTask :=
  { status := some "success", progress := some 100,
    output := some { base_model := some X } }

theorem mathMin_le_left (a b : ℚ) : mathMin a b ≤ a := by
  unfold mathMin; split_ifs with h
  · exact le_refl a
  · exact le_of_not_le h

theorem mathMin_le_right (a b : ℚ) : mathMin a b ≤ b := by
  unfold mathMin; split_ifs with h
  · exact h
  · exact le_refl b

theorem le_mathMin {a b c : ℚ} (hb : a ≤ b) (hc : a ≤ c) : a ≤ mathMin b c := by
  unfold mathMin; split_ifs <;> assumption

theorem numOr0_le {d : Option ℚ} {c : ℚ} (h0 : 0 ≤ c)
    (hp : ∀ p, d = some p → p ≤ c) : numOr0 d ≤ c := by
  cases d with
  | none => simpa [numOr0] using h0
  | some p => simpa [numOr0] using hp p rfl

theorem chain_pollCatch_sets (rc mr : ℚ) :
    List.Chain' (fun a b : ℚ => a ≤ b) (pollCatch rc mr).sets := by
  unfold pollCatch; split_ifs <;> simp

theorem chain_pollStatusBranch_sets (rc mr jitter : ℚ) (d : StatusBody)
    (hj : 0 ≤ jitter) (hp0 : numOr0 d.progress ≤ 98) :
    List.Chain' (fun a b : ℚ => a ≤ b) (pollStatusBranch rc mr d jitter).sets := by
  unfold pollStatusBranch
  by_cases h1 : d.status = some "success"
  · simp [h1]
  · by_cases h2 : d.status = some "failed" ∨ d.status = some "cancelled" ∨ d.status = some "unknown"
    · simp [h1, h2]
    · by_cases h3 : rc ≥ mr ∧ numTruthy d.progress = true
      · simp only [h1, h2, h3, if_true, if_false, if_pos, if_neg, not_false_iff,
          List.chain'_cons, List.chain'_singleton, and_true]
        exact le_mathMin hp0 (by linarith)
      · simp [h1, h2, h3]

theorem chain_pollBody_sets (rc mr jitter : ℚ) (d : StatusBody)
    (hj : 0 ≤ jitter) (hp0 : numOr0 d.progress ≤ 98) :
    List.Chain' (fun a b : ℚ => a ≤ b) (pollBody rc mr d jitter).sets := by
  unfold pollBody
  by_cases he : (strTruthy d.error || strTruthy d.message) = true
  · by_cases hr : d.status = some "running" ∧ d.progress.isSome = true
    · simp [he, hr]
    · by_cases hs : strTruthy d.status = true
      · simp [he, hr, hs]
        exact chain_pollStatusBranch_sets rc mr jitter d hj hp0
      · simp [he, hr, hs]
        exact chain_pollCatch_sets rc mr
  · simp [he]
    exact chain_pollStatusBranch_sets rc mr jitter d hj hp0

theorem running_ne_success : ("running" : String) ≠ "success" := by decide

theorem running_ne_failed : ("running" : String) ≠ "failed" := by decide

theorem running_ne_cancelled : ("running" : String) ≠ "cancelled" := by decide

theorem running_ne_unknown : ("running" : String) ≠ "unknown" := by decide

/-- C1 counterexample: two in-progress responses whose reported progress
drops from 50 to 30 (both bodies are exactly what the task-status route
forwards for an upstream running task) produce the observed `setProgress`
sequence `[50, 30]`, which decreases while the same job keeps polling — the
claimed monotonicity fails. -/
theorem progress_monotonicity_counterexample :
    obsTrace initTracker
      [(.body { status := some "running", progress := some 50 }, 0),
       (.body { status := some "running", progress := some 30 }, 0)] = [50, 30] ∧
    ¬ List.Chain' (fun a b : ℚ => a ≤ b)
      (obsTrace initTracker
        [(.body { status := some "running", progress := some 50 }, 0),
         (.body { status := some "running", progress := some 30 }, 0)]) := by
  have heq : obsTrace initTracker
      [(.body { status := some "running", progress := some 50 }, 0),
       (.body { status := some "running", progress := some 30 }, 0)] = [50, 30] := by
    norm_num [obsTrace, trackStep, applyResult, pollStep, pollBody, pollStatusBranch, pollCatch,
      initTracker, numOr0, numTruthy, strTruthy, mathMin,
      running_ne_success, running_ne_failed, running_ne_cancelled, running_ne_unknown]
  refine ⟨heq, ?_⟩
  rw [heq]
  simp only [List.chain'_cons, List.chain'_singleton, and_true]
  norm_num

/-- C1 (amended): monotonicity holds only within a single poll invocation —
the successive `setProgress` arguments of one `pollTaskStatus` call are
non-decreasing, provided the jitter is non-negative and any reported progress
is at most 98.  Across invocations the tracker applies each reported or fake
value without clamping against the previous one, so progress can decrease
(see the counterexample). -/
theorem progress_sets_chain_within_poll (rc mr jitter : ℚ) (o : PollOutcome)
    (hj : 0 ≤ jitter) (hp : reportedLe98 o) :
    List.Chain' (fun a b : ℚ => a ≤ b) (pollStep rc mr o jitter).sets := by
  cases o with
  | netError => exact chain_pollCatch_sets rc mr
  | non2xx code =>
    unfold pollStep
    by_cases hc : code = 405
    · by_cases h0 : rc > 0
      · by_cases hlt : rc < mr
        · simp [hc, h0, hlt]
        · simp only [hc, h0, hlt, if_true, if_false, if_pos, if_neg, not_false_iff]
          exact chain_pollCatch_sets rc mr
      · simp [hc, h0]
    · simp only [hc, if_false, if_neg, not_false_iff]
      exact chain_pollCatch_sets rc mr
  | parseError => exact chain_pollCatch_sets rc mr
  | body d =>
    exact chain_pollBody_sets rc mr jitter d hj (numOr0_le (by norm_num) hp)

theorem pollCatch_charac (rc mr : ℚ) :
    (pollCatch rc mr).uiStatus ≠ some .error ∧
    (pollCatch rc mr).uiStatus ≠ some .completed ∧
    (pollCatch rc mr).next.isSome = true := by
  unfold pollCatch
  rcases le_or_lt mr rc with h | h
  · simp [ge_iff_le, h]
  · simp [ge_iff_le, not_le.mpr h, h]

theorem status_falsy_no_signal {s : Option String} (hs : ¬ strTruthy s = true) :
    ¬ (s = some "failed" ∨ s = some "cancelled" ∨ s = some "unknown") ∧
    ¬ s = some "success" := by
  cases s with
  | none => simp
  | some str =>
    by_cases h : str = ""
    · subst h; simp
    · exact absurd (by simp [strTruthy, h]) hs

theorem pollStatusBranch_charac (rc mr jitter : ℚ) (d : StatusBody) :
    ((pollStatusBranch rc mr d jitter).uiStatus = some .error ↔
      (d.status = some "failed" ∨ d.status = some "cancelled" ∨ d.status = some "unknown")) ∧
    ((pollStatusBranch rc mr d jitter).uiStatus = some .completed ↔
      d.status = some "success") ∧
    ((pollStatusBranch rc mr d jitter).next = none ↔
      ((d.status = some "failed" ∨ d.status = some "cancelled" ∨ d.status = some "unknown") ∨
        d.status = some "success")) := by
  unfold pollStatusBranch
  by_cases h1 : d.status = some "success"
  · simp [h1]
  · by_cases h2 : d.status = some "failed" ∨ d.status = some "cancelled" ∨ d.status = some "unknown"
    · simp [h1, h2]
    · by_cases h3 : rc ≥ mr ∧ numTruthy d.progress = true
      · simp [h1, h2, h3]
      · simp [h1, h2, h3]

theorem pollStep_charac (rc mr jitter : ℚ) (o : PollOutcome) :
    ((pollStep rc mr o jitter).uiStatus = some .error ↔ isFailureSignal o) ∧
    ((pollStep rc mr o jitter).uiStatus = some .completed ↔ isSuccessSignal o) ∧
    ((pollStep rc mr o jitter).next = none ↔ (isFailureSignal o ∨ isSuccessSignal o)) := by
  cases o with
  | netError =>
    have h := pollCatch_charac rc mr
    unfold pollStep
    simp [isFailureSignal, isSuccessSignal, h.1, h.2.1,
      Option.ne_none_iff_isSome.mpr h.2.2]
  | parseError =>
    have h := pollCatch_charac rc mr
    unfold pollStep
    simp [isFailureSignal, isSuccessSignal, h.1, h.2.1,
      Option.ne_none_iff_isSome.mpr h.2.2]
  | non2xx code =>
    have h := pollCatch_charac rc mr
    unfold pollStep
    by_cases hc : code = 405
    · by_cases h0 : rc > 0
      · by_cases hlt : rc < mr
        · simp [hc, h0, hlt, isFailureSignal, isSuccessSignal]
        · simp [hc, h0, hlt, isFailureSignal, isSuccessSignal, h.1, h.2.1,
            Option.ne_none_iff_isSome.mpr h.2.2]
      · simp [hc, h0, isFailureSignal, isSuccessSignal]
    · simp [hc, isFailureSignal, isSuccessSignal, h.1, h.2.1,
        Option.ne_none_iff_isSome.mpr h.2.2]
  | body d =>
    unfold pollStep pollBody
    by_cases he : (strTruthy d.error || strTruthy d.message) = true
    · by_cases hr : d.status = some "running" ∧ d.progress.isSome = true
      · simp [he, hr, isFailureSignal, isSuccessSignal, hr.1]
      · by_cases hs : strTruthy d.status = true
        · simpa [he, hr, hs, isFailureSignal, isSuccessSignal]
            using pollStatusBranch_charac rc mr jitter d
        · have hb := status_falsy_no_signal hs
          have h := pollCatch_charac rc mr
          simp [he, hr, hs, isFailureSignal, isSuccessSignal, h.1, h.2.1,
            Option.ne_none_iff_isSome.mpr h.2.2, hb.1, hb.2]
    · simpa [he, isFailureSignal, isSuccessSignal]
        using pollStatusBranch_charac rc mr jitter d

/-- C2: the polling loop sets the error state exactly when the parsed body
carries an explicit `"failed"`, `"cancelled"` or `"unknown"` status; for every
other outcome that is not a terminal success (network error, unparseable body,
non-2xx response, soft errors) `pollTaskStatus` schedules another poll and
does not set the error state. -/
theorem error_state_iff_explicit_failure (rc mr jitter : ℚ) (o : PollOutcome) :
    ((pollStep rc mr o jitter).uiStatus = some .error ↔ isFailureSignal o) ∧
    (¬ isFailureSignal o → ¬ isSuccessSignal o →
      (pollStep rc mr o jitter).next.isSome = true ∧
      (pollStep rc mr o jitter).uiStatus ≠ some .error) := by
  obtain ⟨h1, h2, h3⟩ := pollStep_charac rc mr jitter o
  refine ⟨h1, fun hf hs => ⟨?_, fun he => hf (h1.mp he)⟩⟩
  refine Option.ne_none_iff_isSome.mp (fun hn => ?_)
  rcases h3.mp hn with h | h
  · exact hf h
  · exact hs h

/-- C2 witness: a network error at retry 0 with `maxRetries = 3` schedules
another poll and does not set the error state. -/
theorem error_state_iff_explicit_failure_witness :
    (pollStep 0 3 .netError 0).next.isSome = true ∧
    (pollStep 0 3 .netError 0).uiStatus ≠ some .error :=
  (error_state_iff_explicit_failure 0 3 0 .netError).2
    (by simp [isFailureSignal]) (by simp [isSuccessSignal])

/-- C1 witness: at retry 3 of 3 a running body reporting progress 94 with
jitter 0 yields the non-decreasing `setProgress` sequence `[94, 97]`. -/
theorem progress_sets_chain_within_poll_witness :
    List.Chain' (fun a b : ℚ => a ≤ b)
      (pollStep 3 3 (.body { status := some "running", progress := some 94 }) 0).sets :=
  progress_sets_chain_within_poll 3 3 0 _ (by norm_num)
    (fun p hq => by simp only [Option.some.injEq] at hq; subst hq; norm_num)

/-- C3 counterexample: a fully-successful status response with fresh numeric
progress 20 while the job is in progress at `retryCount = 1 < maxRetries = 3`
schedules the next poll with attempt counter 2, not 0 — the counter is
incremented, not reset, by a fresh in-progress response. -/
theorem attempt_reset_counterexample :
    (pollStep 1 3 (.body { status := some "running", progress := some 20 }) 0).next
      = some (2, 3) ∧
    ¬ (pollStep 1 3 (.body { status := some "running", progress := some 20 }) 0).next
      = some (0, 3) := by
  have h : (pollStep 1 3 (.body { status := some "running", progress := some 20 }) 0).next
      = some (2, 3) := by
    norm_num [pollStep, pollBody, pollStatusBranch, numOr0, numTruthy, strTruthy,
      running_ne_success, running_ne_failed, running_ne_cancelled, running_ne_unknown]
  refine ⟨h, ?_⟩
  rw [h]
  norm_num

/-- C3 (amended): for a clean in-progress body (no error/message, status not
terminal) the next scheduled poll's attempt counter is `retryCount + 1`; it is
reset to 0 only by the simulated-progress branch, i.e. when
`retryCount ≥ maxRetries` and the fresh progress is truthy. -/
theorem attempt_counter_next_poll (rc mr jitter : ℚ) (d : StatusBody)
    (he : ¬ strTruthy d.error = true) (hm : ¬ strTruthy d.message = true)
    (h1 : ¬ d.status = some "success")
    (h2 : ¬ (d.status = some "failed" ∨ d.status = some "cancelled" ∨ d.status = some "unknown")) :
    (pollStep rc mr (.body d) jitter).next =
      some (if rc ≥ mr ∧ numTruthy d.progress = true then ((0 : ℚ), mr) else (rc + 1, mr)) := by
  have he' : strTruthy d.error = false := by simpa using he
  have hm' : strTruthy d.message = false := by simpa using hm
  unfold pollStep pollBody pollStatusBranch
  by_cases h3 : rc ≥ mr ∧ numTruthy d.progress = true
  · simp [he', hm', h1, h2, h3]
  · simp [he', hm', h1, h2, h3]

/-- C3 witness: at `retryCount = maxRetries = 3` a fresh running body with
truthy progress 20 schedules the re-check at attempt counter 0. -/
theorem attempt_counter_next_poll_witness :
    (pollStep 3 3 (.body { status := some "running", progress := some 20 }) 0).next
      = some (0, 3) := by
  have h := attempt_counter_next_poll 3 3 0 { status := some "running", progress := some 20 }
    (by simp [strTruthy]) (by simp [strTruthy]) (by simp) (by simp)
  rw [h]
  norm_num [numTruthy]

theorem numOr0_lt {d : Option ℚ} {c : ℚ} (h0 : 0 < c)
    (hp : ∀ p, d = some p → p < c) : numOr0 d < c := by
  cases d with
  | none => simpa [numOr0] using h0
  | some p => simpa [numOr0] using hp p rfl

theorem pollCatch_sets_lt (rc mr : ℚ) : ∀ v ∈ (pollCatch rc mr).sets, v < 100 := by
  unfold pollCatch; split_ifs <;> simp
  exact lt_of_le_of_lt (mathMin_le_right _ _) (by norm_num)

theorem pollStatusBranch_completed_sets (rc mr jitter : ℚ) (d : StatusBody)
    (hp0 : numOr0 d.progress < 100) :
    ((pollStatusBranch rc mr d jitter).uiStatus = some .completed →
      (pollStatusBranch rc mr d jitter).sets = [100]) ∧
    ((pollStatusBranch rc mr d jitter).uiStatus ≠ some .completed →
      ∀ v ∈ (pollStatusBranch rc mr d jitter).sets, v < 100) := by
  unfold pollStatusBranch
  by_cases h1 : d.status = some "success"
  · simp [h1]
  · by_cases h2 : d.status = some "failed" ∨ d.status = some "cancelled" ∨ d.status = some "unknown"
    · simp [h1, h2]
    · by_cases h3 : rc ≥ mr ∧ numTruthy d.progress = true
      · simp [h1, h2, h3, hp0]
        exact lt_of_le_of_lt (mathMin_le_left _ _) (by norm_num)
      · simp [h1, h2, h3, hp0]

/-- C4 counterexample: a non-terminal response carrying numeric progress 100
is passed through unclamped — after one such poll the tracker shows
`progress = 100` while the job is still in the generating state with another
poll scheduled, so `progress = 100` does not imply Succeeded. -/
theorem progress_100_while_polling_counterexample :
    (runTrace initTracker
      [(.body { status := some "running", progress := some 100 }, 0)]).progress = 100 ∧
    (runTrace initTracker
      [(.body { status := some "running", progress := some 100 }, 0)]).ui = .generating ∧
    (runTrace initTracker
      [(.body { status := some "running", progress := some 100 }, 0)]).active = true := by
  norm_num [runTrace, applyResult, pollStep, pollBody, pollStatusBranch, initTracker,
    numOr0, numTruthy, strTruthy,
    running_ne_success, running_ne_failed, running_ne_cancelled, running_ne_unknown]

/-- C4 (amended): the success branch is the only one that sets progress 100 —
it sets exactly `[100]` — and every other branch sets only values below 100
(simulated and fake progress are clamped to at most 98) provided the endpoint
never reports a numeric progress of 100 or more; without that proviso a
reported 100 passes through while the job is still polling (see the
counterexample). -/
theorem progress_100_completed_characterization (rc mr jitter : ℚ) (o : PollOutcome)
    (hp : reportedLt100 o) :
    ((pollStep rc mr o jitter).uiStatus = some .completed →
      (pollStep rc mr o jitter).sets = [100]) ∧
    ((pollStep rc mr o jitter).uiStatus ≠ some .completed →
      ∀ v ∈ (pollStep rc mr o jitter).sets, v < 100) := by
  cases o with
  | netError =>
    exact ⟨fun hcon => absurd hcon (pollCatch_charac rc mr).2.1,
      fun _ => pollCatch_sets_lt rc mr⟩
  | parseError =>
    exact ⟨fun hcon => absurd hcon (pollCatch_charac rc mr).2.1,
      fun _ => pollCatch_sets_lt rc mr⟩
  | non2xx code =>
    unfold pollStep
    by_cases hc : code = 405
    · by_cases h0 : rc > 0
      · by_cases hlt : rc < mr
        · simp [hc, h0, hlt]
        · simp only [hc, h0, hlt, if_true, if_false, if_pos, if_neg, not_false_iff]
          exact ⟨fun hcon => absurd hcon (pollCatch_charac rc mr).2.1,
            fun _ => pollCatch_sets_lt rc mr⟩
      · simp [hc, h0]
    · simp only [hc, if_false, if_neg, not_false_iff]
      exact ⟨fun hcon => absurd hcon (pollCatch_charac rc mr).2.1,
        fun _ => pollCatch_sets_lt rc mr⟩
  | body d =>
    have hp0 : numOr0 d.progress < 100 := numOr0_lt (by norm_num) hp
    unfold pollStep pollBody
    by_cases he : (strTruthy d.error || strTruthy d.message) = true
    · by_cases hr : d.status = some "running" ∧ d.progress.isSome = true
      · simp [he, hr, hp0]
      · by_cases hs : strTruthy d.status = true
        · simp [he, hr, hs]
          exact pollStatusBranch_completed_sets rc mr jitter d hp0
        · simp [he, hr, hs]
          exact ⟨fun hcon => absurd hcon (pollCatch_charac rc mr).2.1,
            fun _ => pollCatch_sets_lt rc mr⟩
    · simp [he]
      exact pollStatusBranch_completed_sets rc mr jitter d hp0

/-- C4 witness: a success body reporting progress 90 sets exactly `[100]`,
the completed branch being the one taken. -/
theorem progress_100_completed_characterization_witness :
    (pollStep 0 3 (.body { status := some "success", progress := some 90 }) 0).sets = [100] :=
  (progress_100_completed_characterization 0 3 0
      (.body { status := some "success", progress := some 90 })
      (fun p hq => by simp only [Option.some.injEq] at hq; subst hq; norm_num)).1
    (by simp [pollStep, pollBody, pollStatusBranch, strTruthy])

/-- C5 counterexample: the fake progress of the 4th poll is
`min(98, 25 + 10·3) = 55` regardless of the previously observed value.  In the
trace below the job has already shown simulated progress 97; then three
consecutive polls throw network errors, and the 4th scheduled poll (simulated
mode) sets progress 55 < 97 — it does not strictly increase progress. -/
theorem fourth_poll_increase_counterexample :
    obsTrace initTracker
      [(.netError, 0), (.netError, 0), (.netError, 0),
       (.body { status := some "running", progress := some 94 }, 0),
       (.netError, 0), (.netError, 0), (.netError, 0), (.netError, 0)] = [94, 97, 55] ∧
    (runTrace initTracker
      [(.netError, 0), (.netError, 0), (.netError, 0),
       (.body { status := some "running", progress := some 94 }, 0),
       (.netError, 0), (.netError, 0), (.netError, 0), (.netError, 0)]).progress = 55 ∧
    ¬ ((97 : ℚ) < 55) := by
  refine ⟨?_, ?_, by norm_num⟩ <;>
    norm_num [obsTrace, runTrace, trackStep, applyResult, pollStep, pollBody, pollStatusBranch,
      pollCatch, initTracker, numOr0, numTruthy, strTruthy, mathMin,
      running_ne_success, running_ne_failed, running_ne_cancelled, running_ne_unknown]

/-- C5 (amended): for a fresh job (initial progress 0), four consecutive polls
throwing network errors leave the job generating, with another poll scheduled,
and set progress to `min(98, 25 + 10·3) = 55`: a bounded strict increase over
the initial 0 that never exceeds 98 and never reaches the error state.  The
fake value ignores previously observed progress, so in general (non-fresh
jobs) the 4th poll need not increase progress — see the counterexample. -/
theorem retry_exhaustion_simulation :
    (runTrace initTracker
      [(.netError, 0), (.netError, 0), (.netError, 0), (.netError, 0)]).progress = 55 ∧
    (0 : ℚ) < (runTrace initTracker
      [(.netError, 0), (.netError, 0), (.netError, 0), (.netError, 0)]).progress ∧
    (runTrace initTracker
      [(.netError, 0), (.netError, 0), (.netError, 0), (.netError, 0)]).progress ≤ 98 ∧
    (runTrace initTracker
      [(.netError, 0), (.netError, 0), (.netError, 0), (.netError, 0)]).ui = .generating ∧
    (runTrace initTracker
      [(.netError, 0), (.netError, 0), (.netError, 0), (.netError, 0)]).ui ≠ .error ∧
    (runTrace initTracker
      [(.netError, 0), (.netError, 0), (.netError, 0), (.netError, 0)]).active = true ∧
    obsTrace initTracker
      [(.netError, 0), (.netError, 0), (.netError, 0), (.netError, 0)] = [55] := by
  norm_num [runTrace, obsTrace, applyResult, pollStep, pollCatch, initTracker, mathMin]
  simp

/-- C6: an upstream 401 with usable body — the route converts it to a 200
response with `{status:"running", progress:45}`, and the client keeps polling:
it sets progress 45, leaves the UI status and `isGenerating` untouched (no
error state), and schedules the next poll. -/
theorem soft_error_401_tolerance (rc mr jitter : ℚ) (tid key : Option String)
    (ht : strTruthy tid = true) (hk : strTruthy key = true) :
    (handleTaskStatus tid key (.httpError 401)).1 = 200 ∧
    (handleTaskStatus tid key (.httpError 401)).2.status = some "running" ∧
    (handleTaskStatus tid key (.httpError 401)).2.progress = some 45 ∧
    (pollStep rc mr (.body (handleTaskStatus tid key (.httpError 401)).2) jitter).sets = [45] ∧
    (pollStep rc mr (.body (handleTaskStatus tid key (.httpError 401)).2) jitter).uiStatus = none ∧
    (pollStep rc mr (.body (handleTaskStatus tid key (.httpError 401)).2) jitter).setIsGen = none ∧
    (pollStep rc mr (.body (handleTaskStatus tid key (.httpError 401)).2) jitter).next
      = some (rc + 1, mr) := by
  have hne : ("API key issue, showing progress UI as fallback" : String) ≠ "" := by decide
  have hb : handleTaskStatus tid key (.httpError 401)
      = (200, { status := some "running", progress := some 45,
                error := some "API key issue, showing progress UI as fallback" }) := by
    unfold handleTaskStatus
    simp [ht, hk]
  rw [hb]
  norm_num [pollStep, pollBody, numOr0, strTruthy, hne]

/-- C6 witness: concrete task id and API key, retry 0 of 3. -/
theorem soft_error_401_tolerance_witness :
    (handleTaskStatus (some "t1") (some "k") (.httpError 401)).2.progress = some 45 ∧
    (pollStep 0 3 (.body (handleTaskStatus (some "t1") (some "k") (.httpError 401)).2) 0).next
      = some (0 + 1, 3) :=
  ⟨(soft_error_401_tolerance 0 3 0 (some "t1") (some "k") (by decide) (by decide)).2.2.1,
   (soft_error_401_tolerance 0 3 0 (some "t1") (some "k") (by decide) (by decide)).2.2.2.2.2.2⟩

/-- C7: a success report with no primary model URL but a secondary/base URL X
present ends with `modelUrl = X`: the route promotes `base_model` to
`modelUrl`, and independently the client falls back to `baseModelUrl` when a
success body carries no `modelUrl`. -/
theorem fallback_url_promotion (rc mr jitter : ℚ) (tid key : Option String) (X : String)
    (ht : strTruthy tid = true) (hk : strTruthy key = true) (hX : X ≠ "") :
    (handleTaskStatus tid key (.okTask (successBaseOnlyTask X))).2.modelUrl = some X ∧
    (pollStep rc mr
      (.body (handleTaskStatus tid key (.okTask (successBaseOnlyTask X))).2) jitter).setModelUrl
      = some (some X) ∧
    (pollStep rc mr
      (.body (handleTaskStatus tid key (.okTask (successBaseOnlyTask X))).2) jitter).uiStatus
      = some .completed ∧
    (pollStep rc mr
      (.body (handleTaskStatus tid key (.okTask (successBaseOnlyTask X))).2) jitter).next
      = none ∧
    (∀ d : StatusBody, d.error = none → d.message = none → d.status = some "success" →
      d.modelUrl = none → d.baseModelUrl = some X →
      (pollStep rc mr (.body d) jitter).setModelUrl = some (some X)) := by
  have hb : handleTaskStatus tid key (.okTask (successBaseOnlyTask X))
      = (200, { status := some "success", progress := some 100,
                modelUrl := some X, baseModelUrl := some X }) := by
    unfold handleTaskStatus
    simp [ht, hk]
    simp [normalizeTask, successBaseOnlyTask, orNull, strTruthy, hX, numOr0]
  refine ⟨?_, ?_, ?_, ?_, ?_⟩
  · rw [hb]
  · rw [hb]; norm_num [pollStep, pollBody, pollStatusBranch, strTruthy, hX]
  · rw [hb]; norm_num [pollStep, pollBody, pollStatusBranch, strTruthy, hX]
  · rw [hb]; norm_num [pollStep, pollBody, pollStatusBranch, strTruthy, hX]
  · intro d he hm hs hmu hbu
    unfold pollStep pollBody pollStatusBranch
    simp [he, hm, hs, hmu, hbu, strTruthy, hX]

/-- C7 witness: concrete inputs with base model URL present and primary
absent. -/
theorem fallback_url_promotion_witness :
    (handleTaskStatus (some "t1") (some "k")
      (.okTask (successBaseOnlyTask "https://x/base.glb"))).2.modelUrl
      = some "https://x/base.glb" ∧
    (pollStep 0 3 (.body (handleTaskStatus (some "t1") (some "k")
      (.okTask (successBaseOnlyTask "https://x/base.glb"))).2) 0).setModelUrl
      = some (some "https://x/base.glb") :=
  ⟨(fallback_url_promotion 0 3 0 (some "t1") (some "k") "https://x/base.glb"
      (by decide) (by decide) (by decide)).1,
   (fallback_url_promotion 0 3 0 (some "t1") (some "k") "https://x/base.glb"
      (by decide) (by decide) (by decide)).2.1⟩

theorem runTrace_inactive (st : TrackerState) (tr : List (PollOutcome × ℚ))
    (hst : st.active = false) : runTrace st tr = st ∧ obsTrace st tr = [] := by
  cases tr with
  | nil => exact ⟨rfl, rfl⟩
  | cons hd tl =>
    obtain ⟨o, j⟩ := hd
    unfold runTrace obsTrace
    simp [hst]

/-- C8: each `pollTaskStatus` invocation yields exactly one of three outcomes
— it schedules one further poll without setting a terminal status, or it sets
the completed status and schedules nothing, or it sets the error status and
schedules nothing; and once no poll is pending (in particular right after a
terminal step) the tracker state never changes again and no further
`setProgress` is observed. -/
theorem poll_outcome_trichotomy_terminal :
    (∀ (rc mr jitter : ℚ) (o : PollOutcome),
      ((pollStep rc mr o jitter).next.isSome = true ∧
        (pollStep rc mr o jitter).uiStatus ≠ some .completed ∧
        (pollStep rc mr o jitter).uiStatus ≠ some .error) ∨
      ((pollStep rc mr o jitter).next = none ∧
        (pollStep rc mr o jitter).uiStatus = some .completed) ∨
      ((pollStep rc mr o jitter).next = none ∧
        (pollStep rc mr o jitter).uiStatus = some .error)) ∧
    (∀ (st : TrackerState) (tr : List (PollOutcome × ℚ)), st.active = false →
      runTrace st tr = st ∧ obsTrace st tr = []) ∧
    (∀ (st : TrackerState) (o : PollOutcome) (j : ℚ) (tr : List (PollOutcome × ℚ)),
      st.active = true → (pollStep st.rc st.mr o j).next = none →
      runTrace st ((o, j) :: tr) = applyResult st (pollStep st.rc st.mr o j) ∧
      (runTrace st ((o, j) :: tr)).active = false) := by
  refine ⟨?_, runTrace_inactive, ?_⟩
  · intro rc mr jitter o
    obtain ⟨h1, h2, h3⟩ := pollStep_charac rc mr jitter o
    by_cases hf : isFailureSignal o
    · exact Or.inr (Or.inr ⟨h3.mpr (Or.inl hf), h1.mpr hf⟩)
    · by_cases hsu : isSuccessSignal o
      · exact Or.inr (Or.inl ⟨h3.mpr (Or.inr hsu), h2.mpr hsu⟩)
      · refine Or.inl ⟨?_, fun hc => hsu (h2.mp hc), fun hc => hf (h1.mp hc)⟩
        refine Option.ne_none_iff_isSome.mp (fun hn => ?_)
        rcases h3.mp hn with h | h
        · exact hf h
        · exact hsu h
  · intro st o j tr hact hnone
    have hact2 : (applyResult st (pollStep st.rc st.mr o j)).active = false := by
      unfold applyResult
      simp [hnone]
    have hfix := runTrace_inactive (applyResult st (pollStep st.rc st.mr o j)) tr hact2
    have hcons : runTrace st ((o, j) :: tr)
        = if st.active then runTrace (applyResult st (pollStep st.rc st.mr o j)) tr
          else st := rfl
    rw [hcons]
    simp [hact, hfix.1, hact2]

/-- C8 witness: an explicit `"failed"` body on the first poll of a fresh job
ends the chain — the state after the whole trace is the state right after that
poll, and it is inactive. -/
theorem poll_outcome_trichotomy_terminal_witness :
    runTrace initTracker [(.body { status := some "failed" }, 0)]
      = applyResult initTracker
          (pollStep initTracker.rc initTracker.mr (.body { status := some "failed" }) 0) ∧
    (runTrace initTracker [(.body { status := some "failed" }, 0)]).active = false :=
  poll_outcome_trichotomy_terminal.2.2 initTracker (.body { status := some "failed" }) 0 [] rfl
    (by simp [initTracker, pollStep, pollBody, pollStatusBranch, strTruthy])

/-- C9: given a non-empty trimmed prompt and a passing limits check, exactly
one `/api/generate-model` call is made per submission, and when the
start-generation request fails (thrown fetch error, non-ok response, or parse
error) the handler sets the error status at once, starts no polling, and does
not retry the submission. -/
theorem submit_failure_no_retry (p : String) (o : SubmitOutcome) (hp : ¬ jsTrim p = "") :
    (handleTextSubmit p true o).generateCalls = 1 ∧
    (o = .fetchError ∨ o = .respNotOk ∨ o = .parseError →
      (handleTextSubmit p true o).statusSets = [.uploading, .generating, .error] ∧
      (handleTextSubmit p true o).poll = none ∧
      (handleTextSubmit p true o).setIsGen = some false) := by
  unfold handleTextSubmit
  cases o <;> simp [hp]

/-- C9 witness: a thrown fetch error for the prompt "a cat". -/
theorem submit_failure_no_retry_witness :
    (handleTextSubmit "a cat" true .fetchError).generateCalls = 1 ∧
    (handleTextSubmit "a cat" true .fetchError).statusSets
      = [.uploading, .generating, .error] ∧
    (handleTextSubmit "a cat" true .fetchError).poll = none :=
  ⟨(submit_failure_no_retry "a cat" .fetchError (by decide)).1,
   ((submit_failure_no_retry "a cat" .fetchError (by decide)).2 (Or.inl rfl)).1,
   ((submit_failure_no_retry "a cat" .fetchError (by decide)).2 (Or.inl rfl)).2.1⟩

/-- C10: the task-status route returns HTTP 200 for every request carrying a
truthy taskId, whatever the upstream outcome; only a missing taskId yields
400; and an internal exception is reported inside a 200 body as
`{status:"running", progress:40}`. -/
theorem task_status_always_200_with_taskId (tid key : Option String) (up : UpstreamOutcome) :
    (strTruthy tid = true → (handleTaskStatus tid key up).1 = 200) ∧
    (strTruthy tid = false → (handleTaskStatus tid key up).1 = 400) ∧
    (∀ msg, strTruthy tid = true → strTruthy key = true →
      (handleTaskStatus tid key (.fetchError msg)).2.status = some "running" ∧
      (handleTaskStatus tid key (.fetchError msg)).2.progress = some 40) := by
  refine ⟨fun ht => ?_, fun ht => ?_, fun msg ht hk => ?_⟩
  · unfold handleTaskStatus
    by_cases hk : strTruthy key = true
    · cases up with
      | fetchError msg => simp [ht, hk]
      | httpError code =>
        by_cases hcode : code = 401 ∨ code = 403
        · simp [ht, hk, hcode]
        · simp [ht, hk, hcode]
      | okUnparseable => simp [ht, hk]
      | okNoData => simp [ht, hk]
      | okTask t => simp [ht, hk]
    · simp [ht, hk]
  · unfold handleTaskStatus
    simp [ht]
  · unfold handleTaskStatus
    simp [ht, hk]

/-- C10 witness: a thrown upstream error with a taskId present returns 200
with fallback progress 40; a missing taskId returns 400. -/
theorem task_status_always_200_with_taskId_witness :
    (handleTaskStatus (some "t1") (some "k") (.fetchError "boom")).1 = 200 ∧
    (handleTaskStatus none (some "k") (.fetchError "boom")).1 = 400 ∧
    (handleTaskStatus (some "t1") (some "k") (.fetchError "boom")).2.progress = some 40 :=
  ⟨(task_status_always_200_with_taskId (some "t1") (some "k") (.fetchError "boom")).1
      (by decide),
   (task_status_always_200_with_taskId none (some "k") (.fetchError "boom")).2.1 (by decide),
   ((task_status_always_200_with_taskId (some "t1") (some "k") (.fetchError "boom")).2.2
      "boom" (by decide) (by decide)).2⟩
